import Mathlib

/-!
Verification of the resume/job-matching API core (services/resume_service.py,
services/job_description_service.py, services/user_service.py,
utils/haddlers.py) against its design specification.

Conventions of the embedding:
* UUIDs and timestamps are represented by natural numbers.  `uuid4()` is
  modelled by drawing the `nextId` counter of the store and incrementing it,
  so a generated id is fresh with respect to any store whose row ids are
  all below the counter.
* Python `or`-defaulting on optional strings (`dto.title or existing.title`)
  is modelled by `strOr` / `optStrOr`, which fall back on `none` and on the
  empty string (the only falsy `str` value).
* A Python exception raised by a service method is modelled by the `.error`
  branch of `Except`; the distinct exception messages become distinct
  constructors of the error type.
-/

namespace Resumes

/-- Resume status enum.  Modelled from the spec: `domain/entities/domain.py`
is not in the sources; the spec's data model gives
`status: enum\x7bDRAFT, ACTIVE, ARCHIVED\x7d`. -/
inductive ResumeStatus where
  | DRAFT
  | ACTIVE
  | ARCHIVED
deriving DecidableEq, Repr

/-- The `Resume` domain entity, fields as constructed by
`ResumeService.criar_curriculo` / `atualizar_curriculo`
(services/resume_service.py). -/
structure Resume where
  resume_id : Nat
  resume_group_id : Nat
  user_id : Nat
  title : String
  version_number : Nat
  version : String
  is_current : Bool
  status : ResumeStatus
  data_lake_file_id : Option Nat := none
  original_filename : Option String := none
  file_size : Option Int := none
  file_type : Option String := none
  created_at : Nat := 0
  updated_at : Nat := 0
  last_analyzed_at : Option Nat := none
  analysis_count : Nat := 0
  average_match_score : Option Int := none
deriving DecidableEq, Repr

/-- `ResumeCreateRequest` DTO, fields as read by `criar_curriculo`. -/
structure ResumeCreateRequest where
  title : String
  version : String
  original_filename : Option String := none
  file_size : Option Int := none
  file_type : Option String := none
deriving DecidableEq, Repr

/-- `ResumeUpdateRequest` DTO, fields as read by `atualizar_curriculo`;
every field is optional (partial update payload). -/
structure ResumeUpdateRequest where
  title : Option String := none
  version : Option String := none
  status : Option ResumeStatus := none
  original_filename : Option String := none
  file_size : Option Int := none
  file_type : Option String := none
deriving DecidableEq, Repr

/-- Python `x or d` for an optional string `x` and string default `d`:
`None` and the empty string are falsy. -/
def strOr (v : Option String) (d : String) : String :=
  match v with
  | none => d
  | some s => if s = "" then d else s

/-- Python `x or d` where both sides are optional strings. -/
def optStrOr (v : Option String) (d : Option String) : Option String :=
  match v with
  | none => d
  | some s => if s = "" then d else some s

/-- Python `x or d` for an optional enum value: enum members are always
truthy, so only `None` falls back. -/
def statusOr (v : Option ResumeStatus) (d : ResumeStatus) : ResumeStatus :=
  match v with
  | none => d
  | some s => s

/-- The persistent store behind `ResumeRepository`: the rows plus a
counter supplying fresh ids (the model of `uuid4()`). -/
structure ResumeStore where
  rows : List Resume
  nextId : Nat
deriving Repr

/-- All row ids were drawn from the fresh-id counter. -/
def ResumeStore.wf (s : ResumeStore) : Prop :=
  ∀ r ∈ s.rows, r.resume_id < s.nextId

/-- Modelled from the spec: `ResumeRepository.get_by_id` (the repository
module `data/sql_repository.py` is not in the sources) returns the row
keyed by `resume_id`. -/
def getById (s : ResumeStore) (rid : Nat) : Option Resume :=
  s.rows.find? (fun r => r.resume_id = rid)

/-- Modelled from the spec: `ResumeRepository.add` persists a new row. -/
def addRow (s : ResumeStore) (r : Resume) : ResumeStore :=
  { rows := s.rows ++ [r], nextId := s.nextId + 1 }

/-- Modelled from the spec: `ResumeRepository.update` persists the
single-row change to the row with the given `resume_id`. -/
def updateRow (s : ResumeStore) (r : Resume) : ResumeStore :=
  { rows := s.rows.map (fun x => if x.resume_id = r.resume_id then r else x),
    nextId := s.nextId }

/-- Modelled from the spec: `ResumeRepository.delete` removes the row
keyed by `resume_id` and reports whether a row was removed. -/
def deleteRow (s : ResumeStore) (rid : Nat) : ResumeStore × Bool :=
  ({ rows := s.rows.filter (fun r => ¬ r.resume_id = rid), nextId := s.nextId },
   (s.rows.find? (fun r => r.resume_id = rid)).isSome)

/-- Modelled from the spec: `ResumeRepository.list_by_user` returns the
rows owned by the user, optionally filtered by status. -/
def listByUser (s : ResumeStore) (uid : Nat) (f : Option ResumeStatus) :
    List Resume :=
  s.rows.filter (fun r =>
    r.user_id = uid && (match f with | none => true | some st => r.status = st))

/-- Error outcomes of the resume service: `ValueError("Resume not found")`
and `PermissionError("Access denied to this resume")`. -/
inductive ResumeError where
  | notFound
  | accessDenied
deriving DecidableEq, Repr

/-- `ResumeService.criar_curriculo`: a new version group at
`version_number = 1`, `is_current = true`, `status = DRAFT`.  `now` stands
for `datetime.utcnow()`; the fresh `resume_id` and `resume_group_id` are
drawn from the store's counter. -/
def criar_curriculo (s : ResumeStore) (now : Nat) (uid : Nat)
    (dto : ResumeCreateRequest) : ResumeStore × Resume :=
  let r : Resume :=
    { resume_id := s.nextId
      resume_group_id := s.nextId
      user_id := uid
      title := dto.title.trim
      version_number := 1
      version := dto.version
      is_current := true
      status := ResumeStatus.DRAFT
      original_filename := dto.original_filename
      file_size := dto.file_size
      file_type := dto.file_type
      created_at := now
      updated_at := now }
  (addRow s r, r)

/-- `ResumeService.atualizar_curriculo`: look the row up, check ownership,
flip the row's `is_current` when it is current, then insert the successor
row built from the payload with the existing row as fallback. -/
def atualizar_curriculo (s : ResumeStore) (now : Nat) (uid : Nat) (rid : Nat)
    (dto : ResumeUpdateRequest) : Except ResumeError (ResumeStore × Resume) :=
  match getById s rid with
  | none => .error .notFound
  | some existing =>
    if existing.user_id ≠ uid then .error .accessDenied
    else
      let n := existing.version_number + 1
      let newVersion := strOr dto.version ("v" ++ toString n ++ ".0")
      let s1 :=
        if existing.is_current then
          updateRow s { existing with is_current := false, updated_at := now }
        else s
      let newResume : Resume :=
        { resume_id := s1.nextId
          resume_group_id := existing.resume_group_id
          user_id := existing.user_id
          title := strOr dto.title existing.title
          version_number := n
          version := newVersion
          is_current := true
          status := statusOr dto.status existing.status
          data_lake_file_id := existing.data_lake_file_id
          original_filename := optStrOr dto.original_filename existing.original_filename
          file_size := match dto.file_size with
                       | some v => some v
                       | none => existing.file_size
          file_type := optStrOr dto.file_type existing.file_type
          created_at := now
          updated_at := now
          last_analyzed_at := existing.last_analyzed_at
          analysis_count := existing.analysis_count
          average_match_score := existing.average_match_score }
      .ok (addRow s1 newResume, newResume)

/-- `ResumeService.excluir_curriculo`: look up, check ownership, delete
the single named version row. -/
def excluir_curriculo (s : ResumeStore) (uid : Nat) (rid : Nat) :
    Except ResumeError (ResumeStore × Bool) :=
  match getById s rid with
  | none => .error .notFound
  | some resume =>
    if resume.user_id ≠ uid then .error .accessDenied
    else .ok (deleteRow s rid)

/-- The `ResumeListResponse` DTO assembled by `listar_curriculos`. -/
structure ResumeListResponse where
  resumes : List Resume
  total_count : Nat
  active_count : Nat
  draft_count : Nat
  archived_count : Nat
deriving Repr

/-- `ResumeService.listar_curriculos`: list the user's rows (optionally
filtered) and tally the three statuses over that filtered set. -/
def listar_curriculos (s : ResumeStore) (uid : Nat) (f : Option ResumeStatus) :
    ResumeListResponse :=
  let resumes := listByUser s uid f
  { resumes := resumes
    total_count := resumes.length
    active_count := (resumes.filter (fun r => r.status = .ACTIVE)).length
    draft_count := (resumes.filter (fun r => r.status = .DRAFT)).length
    archived_count := (resumes.filter (fun r => r.status = .ARCHIVED)).length }

/-- Number of rows of a version group marked current. -/
def currentCount (s : ResumeStore) (g : Nat) : Nat :=
  (s.rows.filter (fun r => r.resume_group_id = g ∧ r.is_current = true)).length

end Resumes

namespace Jobs

/-- A caller-supplied identifier as it reaches `resolve_id_from_uuid`
(utils/haddlers.py): either an actual UUID object, an integer, or some
other value that Python `int()` may or may not parse. -/
inductive IdValue where
  | intVal (n : Int)
  | uuidVal (u : Nat)
  | badVal
deriving DecidableEq, Repr

/-- Python `int(value)` on a non-UUID value: `intVal` covers every value
`int()` accepts (integers and digit strings) and passes through as the
integer itself; `badVal` covers every value where `int()` raises, which
the source turns into `None`; on a UUID object `int()` raises too (that
branch is unreachable in the source). -/
def pyInt : IdValue → Option Int
  | .intVal n => some n
  | .uuidVal _ => none
  | .badVal => none

/-- `resolve_id_from_uuid` (utils/haddlers.py): a UUID is looked up in the
user table (`ok = false` models the `except Exception: return None` branch,
i.e. any storage failure of `execute_query`); a row maps the public UUID to
the surrogate numeric key.  A non-UUID value is interpreted by `int()`,
with `none` on failure. -/
def resolve_id_from_uuid (users : List (Nat × Int)) (ok : Bool)
    (value : IdValue) : Option Int :=
  match value with
  | .uuidVal u =>
    if ok then
      match users.find? (fun p => p.1 = u) with
      | some p => some p.2
      | none => none
    else none
  | v => pyInt v

/-- The `JobDescription` entity, fields as constructed by
`JobDescriptionService.add_job_description`; `created_by_user_id` is the
internal surrogate key set at persistence time. -/
structure JobDescription where
  job_id : Nat
  company_id : Option Nat := none
  title : String
  location : Option String := none
  job_type : Option String := none
  salary_range : Option String := none
  experience_level : Option String := none
  description : String
  requirements : Option String := none
  benefits : Option String := none
  posted_at : Nat := 0
  expires_at : Option Nat := none
  is_active : Bool := true
  created_by_user_id : Option Int := none
  view_count : Nat := 0
  application_count : Nat := 0
deriving DecidableEq, Repr

/-- `JobDescriptionCreateRequest` DTO, fields as read by
`add_job_description`. -/
structure JobDescriptionCreateRequest where
  company_id : Option Nat := none
  title : String
  location : Option String := none
  job_type : Option String := none
  salary_range : Option String := none
  experience_level : Option String := none
  description : String
  requirements : Option String := none
  benefits : Option String := none
  expires_at : Option Nat := none
deriving DecidableEq, Repr

/-- `JobDescriptionUpdateRequest` DTO.  Modelled from the spec: the schema
module `schemas/requests/requests.py` is not in the sources; every field
is optional and `request.dict(exclude_unset=True)` keeps exactly the
fields that were explicitly provided (`some _`). -/
structure JobDescriptionUpdateRequest where
  title : Option String := none
  location : Option String := none
  job_type : Option String := none
  salary_range : Option String := none
  experience_level : Option String := none
  description : Option String := none
  requirements : Option String := none
  benefits : Option String := none
  expires_at : Option Nat := none
  is_active : Option Bool := none
deriving DecidableEq, Repr

/-- The store behind `JobRepository`: job rows, the user table consulted
by the identity resolver, and the fresh-id counter modelling `uuid4()`. -/
structure JobStore where
  jobs : List JobDescription
  users : List (Nat × Int)
  nextId : Nat
deriving Repr

/-- Error outcomes of the job service, one constructor per distinct
`ValueError` message (plus `internalError` for an uncaught `TypeError`). -/
inductive JobError where
  | authenticationRequired
  | notFound
  | authUserNotFound
  | notAuthorized
  | internalError
deriving DecidableEq, Repr

/-- Modelled from the spec: `JobRepository.update` (the repository module
`data/sql_repository.py` is not in the sources) applies only the
explicitly-provided fields of the `exclude_unset` payload to the row
(partial update). -/
def applyUpdate (j : JobDescription) (r : JobDescriptionUpdateRequest) :
    JobDescription :=
  { j with
    title := r.title.getD j.title
    location := match r.location with | some v => some v | none => j.location
    job_type := match r.job_type with | some v => some v | none => j.job_type
    salary_range := match r.salary_range with
                    | some v => some v
                    | none => j.salary_range
    experience_level := match r.experience_level with
                        | some v => some v
                        | none => j.experience_level
    description := r.description.getD j.description
    requirements := match r.requirements with
                    | some v => some v
                    | none => j.requirements
    benefits := match r.benefits with | some v => some v | none => j.benefits
    expires_at := match r.expires_at with
                  | some v => some v
                  | none => j.expires_at
    is_active := r.is_active.getD j.is_active }

/-- Modelled from the spec: `JobRepository.add` resolves the creator id
(which may arrive as an external UUID) via the Identity Resolver, fails
`AuthenticationRequired` when no creator id is supplied, fails closed when
the id cannot be resolved, and stores the resolved numeric key as
`created_by_user_id`. -/
def JobRepository_add (s : JobStore) (j : JobDescription)
    (creator : Option IdValue) : Except JobError (JobStore × JobDescription) :=
  match creator with
  | none => .error .authenticationRequired
  | some v =>
    match resolve_id_from_uuid s.users true v with
    | none => .error .authUserNotFound
    | some k =>
      let stored := { j with created_by_user_id := some k }
      .ok ({ s with jobs := s.jobs ++ [stored] }, stored)

/-- `JobDescriptionService.add_job_description`: build the entity from the
request (`posted_at = now`, `is_active = true`, fresh `job_id`) and hand
it to the repository together with the optional creator id. -/
def add_job_description (s : JobStore) (now : Nat)
    (request : JobDescriptionCreateRequest) (creator : Option IdValue) :
    Except JobError (JobStore × JobDescription) :=
  let job : JobDescription :=
    { job_id := s.nextId
      company_id := request.company_id
      title := request.title
      location := request.location
      job_type := request.job_type
      salary_range := request.salary_range
      experience_level := request.experience_level
      description := request.description
      requirements := request.requirements
      benefits := request.benefits
      posted_at := now
      expires_at := request.expires_at
      is_active := true }
  JobRepository_add { s with nextId := s.nextId + 1 } job creator

/-- Modelled from the spec: `JobRepository.get_by_id` returns the row
keyed by `job_id`. -/
def getJobById (s : JobStore) (jid : Nat) : Option JobDescription :=
  s.jobs.find? (fun j => j.job_id = jid)

/-- `JobDescriptionService.get_job_description`: plain read with no
caller identity and no ownership check. -/
def get_job_description (s : JobStore) (jid : Nat) : Option JobDescription :=
  match getJobById s jid with
  | none => none
  | some job => some job

/-- `JobDescriptionService.update_job_description`: missing identity fails
first; then absent job; then an unresolvable identity (`resolved is None`
and the `except Exception` branch both become "Authenticated user not
found"); then the ownership comparison `int(existing.created_by_user_id)
!= int(resolved)` (a stored `NULL` owner makes `int(None)` raise a
`TypeError` that propagates, modelled as `internalError`); finally the
partial update is applied and persisted. -/
def update_job_description (s : JobStore) (ok : Bool) (jid : Nat)
    (request : JobDescriptionUpdateRequest) (currentUser : Option IdValue) :
    Except JobError (JobStore × JobDescription) :=
  match currentUser with
  | none => .error .authenticationRequired
  | some v =>
    match getJobById s jid with
    | none => .error .notFound
    | some existing =>
      match resolve_id_from_uuid s.users ok v with
      | none => .error .authUserNotFound
      | some resolved =>
        match existing.created_by_user_id with
        | none => .error .internalError
        | some owner =>
          if owner ≠ resolved then .error .notAuthorized
          else
            let updated := applyUpdate existing request
            .ok ({ s with
                    jobs := s.jobs.map
                      (fun j => if j.job_id = jid then updated else j) },
                 updated)

/-- `JobDescriptionService.delete_job_description`: same authorization
chain as update (here a stored `NULL` owner is explicitly rejected as
not authorized); deletion removes the row. -/
def delete_job_description (s : JobStore) (ok : Bool) (jid : Nat)
    (currentUser : Option IdValue) : Except JobError (JobStore × Bool) :=
  match currentUser with
  | none => .error .authenticationRequired
  | some v =>
    match getJobById s jid with
    | none => .error .notFound
    | some existing =>
      match resolve_id_from_uuid s.users ok v with
      | none => .error .authUserNotFound
      | some resolved =>
        match existing.created_by_user_id with
        | none => .error .notAuthorized
        | some owner =>
          if owner ≠ resolved then .error .notAuthorized
          else
            .ok ({ s with jobs := s.jobs.filter (fun j => ¬ j.job_id = jid) },
                 true)

end Jobs

namespace Users

/-- Abstract model of a bcrypt hash: the hash determines the plaintext it
was derived from together with a salt, and `checkpw` succeeds exactly when
the plaintext matches.  The one-way property of bcrypt is irrelevant to
the verified claims. -/
structure HashedPassword where
  pw : String
  salt : Nat
deriving DecidableEq, Repr

/-- `bcrypt.checkpw(plain, stored)`. -/
def checkpw (plain : String) (stored : HashedPassword) : Bool :=
  plain = stored.pw

/-- `UserFactory.hash_password`: salted one-way hash of the plaintext. -/
def hash_password (plain : String) (salt : Nat) : HashedPassword :=
  ⟨plain, salt⟩

/-- The `User` domain entity (domain/entities/user_entity.py). -/
structure User where
  id : Nat
  name : String
  email : String
  password : HashedPassword
  phone : Option String := none
  avatar_url : Option String := none
  active : Bool := true
  created_at : Nat := 0
  updated_at : Nat := 0
deriving DecidableEq, Repr

/-- The claims carried by a JWT issued by the user service: `sub` (the
user id), `email`, the optional `type` tag (`"refresh"` on renewal
credentials) and the expiry. -/
structure TokenPayload where
  sub : Option Nat := none
  email : Option String := none
  ttype : Option String := none
  exp : Nat := 0
deriving DecidableEq, Repr

/-- A token as seen by `jose.jwt`: either well-signed with a payload, or
one whose `jwt.decode` raises `JWTError` (bad signature, malformed,
expired). -/
inductive JwtToken where
  | signed (p : TokenPayload)
  | garbage
deriving DecidableEq, Repr

/-- `jwt.decode` with the service secret: yields the payload of a
well-signed token and fails on anything else. -/
def jwtDecode : JwtToken → Option TokenPayload
  | .signed p => some p
  | .garbage => none

/-- `UserService._create_access_token`: `sub` and `email` claims plus an
expiry, no `type` tag. -/
def create_access_token (uid : Nat) (em : String) (e : Nat) : JwtToken :=
  .signed { sub := some uid, email := some em, exp := e }

/-- `UserService._create_refresh_token`: `sub`, `email`, expiry and the
`type = "refresh"` tag. -/
def create_refresh_token (uid : Nat) (em : String) (e : Nat) : JwtToken :=
  .signed { sub := some uid, email := some em, ttype := some "refresh", exp := e }

/-- The `TokenResponse` DTO returned by `authenticate_user` and
`refresh_token`. -/
structure TokenResponse where
  access_token : JwtToken
  refresh_token : JwtToken
  token_type : String
  expires_in : Nat
deriving DecidableEq, Repr

/-- Error outcomes of the user service, one constructor per distinct
`ValueError` message raised on the verified paths. -/
inductive UserError where
  | invalidCredentials
  | accountDisabled
  | currentPasswordIncorrect
deriving DecidableEq, Repr

/-- `SQLUserRepository.get_user_by_email`: emails are stored lowercased
and compared against `email.lower()` (case-insensitive match).  The model
treats stored and queried emails as already lowercased — no verified
claim depends on letter case. -/
def findByEmail (store : List User) (email : String) : Option User :=
  store.find? (fun u => u.email = email)

/-- `SQLUserRepository.get_user_by_id`: lookup by the public id. -/
def getUserById (store : List User) (uid : Nat) : Option User :=
  store.find? (fun u => u.id = uid)

/-- `settings.ACCESS_TOKEN_EXPIRE_MINUTES` (core/config.py). -/
def ACCESS_TOKEN_EXPIRE_MINUTES : Nat := 30

/-- `settings.REFRESH_TOKEN_EXPIRE_DAYS` (core/config.py). -/
def REFRESH_TOKEN_EXPIRE_DAYS : Nat := 7

/-- `UserService.authenticate_user`: unknown email and wrong password both
raise `ValueError("Invalid credentials")`; a wrong-password check precedes
the `active` check; a disabled account with matching credentials raises
`ValueError("User account is disabled")`; otherwise the access/refresh
token pair is issued for the user's id and email. -/
def authenticate_user (store : List User) (now : Nat)
    (email password : String) : Except UserError TokenResponse :=
  match findByEmail store email with
  | none => .error .invalidCredentials
  | some user =>
    if ¬ checkpw password user.password then .error .invalidCredentials
    else if ¬ user.active then .error .accountDisabled
    else
      .ok { access_token :=
              create_access_token user.id user.email
                (now + ACCESS_TOKEN_EXPIRE_MINUTES * 60)
            refresh_token :=
              create_refresh_token user.id user.email
                (now + REFRESH_TOKEN_EXPIRE_DAYS * 24 * 3600)
            token_type := "bearer"
            expires_in := ACCESS_TOKEN_EXPIRE_MINUTES * 60 }

/-- `UserService.refresh_token`: every failure path (undecodable token,
missing or wrong `type` tag, missing claims, unknown or inactive user)
returns the same `None`; on success a fresh access/refresh pair is issued
for the same `sub` and `email` claims. -/
def refresh_token (store : List User) (now : Nat) (tok : JwtToken) :
    Option TokenResponse :=
  match jwtDecode tok with
  | none => none
  | some payload =>
    if payload.ttype ≠ some "refresh" then none
    else
      match payload.sub, payload.email with
      | some uid, some em =>
        match getUserById store uid with
        | none => none
        | some user =>
          if ¬ user.active then none
          else
            some { access_token :=
                     create_access_token uid em
                       (now + ACCESS_TOKEN_EXPIRE_MINUTES * 60)
                   refresh_token :=
                     create_refresh_token uid em
                       (now + REFRESH_TOKEN_EXPIRE_DAYS * 24 * 3600)
                   token_type := "bearer"
                   expires_in := ACCESS_TOKEN_EXPIRE_MINUTES * 60 }
      | _, _ => none

/-- `UserService.change_password`: a missing user returns `False` without
raising; a current password that does not verify raises
`ValueError("Current password is incorrect")` before any write; otherwise
the new password is hashed and persisted
(`SQLUserRepository.update_password_hash` is not in the sources; modelled
from the spec: re-hashes and persists the new value, reporting success).
The pair returned is (outcome, resulting store), so that the store after a
failed call is part of the statement. -/
def change_password (store : List User) (salt : Nat) (uid : Nat)
    (currentPw newPw : String) : Except UserError Bool × List User :=
  match getUserById store uid with
  | none => (.ok false, store)
  | some user =>
    if ¬ checkpw currentPw user.password then
      (.error .currentPasswordIncorrect, store)
    else
      let nh := hash_password newPw salt
      (.ok true,
       store.map (fun u => if u.id = uid then { u with password := nh } else u))

end Users

/-! ## Theorems -/

namespace Jobs

/-- Claim C4: the identity resolver passes an integer-like value through as
that integer; a UUID is resolved only through an actual row of the user
table (so a returned key always belongs to a row whose UUID column equals
the input); a UUID with no matching row yields `none`; a storage failure
and a malformed input also yield `none`.  Hence no unresolved UUID can
compare equal to any stored surrogate key. -/
theorem resolve_id_from_uuid_spec (users : List (Nat × Int)) (b : Bool) :
    (∀ n : Int, resolve_id_from_uuid users b (.intVal n) = some n) ∧
    (∀ u : Nat, resolve_id_from_uuid users false (.uuidVal u) = none) ∧
    (∀ u : Nat, (∀ p ∈ users, p.1 ≠ u) →
      resolve_id_from_uuid users b (.uuidVal u) = none) ∧
    (resolve_id_from_uuid users b .badVal = none) ∧
    (∀ u : Nat, ∀ k : Int,
      resolve_id_from_uuid users b (.uuidVal u) = some k → (u, k) ∈ users) := by
  refine ⟨fun n => rfl, fun u => rfl, ?_, rfl, ?_⟩
  · intro u h
    have hf : users.find? (fun p => decide (p.1 = u)) = none := by
      rw [List.find?_eq_none]
      intro p hp
      simpa using h p hp
    simp [resolve_id_from_uuid, hf]
  · intro u k h
    by_cases hb : b
    · subst hb
      simp only [resolve_id_from_uuid, if_true] at h
      cases hf : users.find? (fun p => decide (p.1 = u)) with
      | none => rw [hf] at h; cases h
      | some p =>
        rw [hf] at h
        have h2 : p.2 = k := by simpa using h
        have hmem := List.mem_of_find?_eq_some hf
        have hp : p.1 = u := by simpa using List.find?_some hf
        have hpk : p = (u, k) := by
          cases p
          simp_all
        rw [hpk] at hmem
        exact hmem
    · simp only [Bool.not_eq_true] at hb
      subst hb
      simp [resolve_id_from_uuid] at h

/-- Witness for C4 at a concrete one-row user table. -/
theorem resolve_id_from_uuid_spec_witness :
    resolve_id_from_uuid [(1, 10)] true (.intVal 5) = some 5 ∧
    resolve_id_from_uuid [(1, 10)] false (.uuidVal 1) = none ∧
    resolve_id_from_uuid [(1, 10)] true (.uuidVal 2) = none ∧
    resolve_id_from_uuid [(1, 10)] true .badVal = none ∧
    ((1, (10 : Int)) ∈ [((1 : Nat), (10 : Int))]) :=
  ⟨(resolve_id_from_uuid_spec [(1, 10)] true).1 5,
   (resolve_id_from_uuid_spec [(1, 10)] true).2.1 1,
   (resolve_id_from_uuid_spec [(1, 10)] true).2.2.1 2 (by decide),
   (resolve_id_from_uuid_spec [(1, 10)] true).2.2.2.1,
   (resolve_id_from_uuid_spec [(1, 10)] true).2.2.2.2 1 10 (by decide)⟩

end Jobs

namespace Users

/-- Claim C5: a nonexistent email and an existing email with a wrong
password fail with the literally identical error
(`ValueError("Invalid credentials")`), so the two cases are
indistinguishable to the caller; an account whose credentials verify but
whose `active` flag is false fails with the account-disabled error. -/
theorem authenticate_user_spec (store : List User) (now : Nat) :
    (∀ email pw, findByEmail store email = none →
      authenticate_user store now email pw = .error .invalidCredentials) ∧
    (∀ email pw u, findByEmail store email = some u →
      checkpw pw u.password = false →
      authenticate_user store now email pw = .error .invalidCredentials) ∧
    (∀ email pw u, findByEmail store email = some u →
      checkpw pw u.password = true → u.active = false →
      authenticate_user store now email pw = .error .accountDisabled) := by
  refine ⟨?_, ?_, ?_⟩
  · intro email pw h
    simp [authenticate_user, h]
  · intro email pw u h hc
    simp [authenticate_user, h, hc]
  · intro email pw u h hc ha
    simp [authenticate_user, h, hc, ha]

/-- Witness for C5 over a two-user store (an active and a disabled
account). -/
theorem authenticate_user_spec_witness :
    authenticate_user
        [{ id := 1, name := "Alice", email := "alice@x.com",
           password := ⟨"Secret123", 0⟩ },
         { id := 2, name := "Bob", email := "bob@x.com",
           password := ⟨"Pw12345678", 0⟩, active := false }] 0
        "carol@x.com" "whatever" = .error .invalidCredentials ∧
    authenticate_user
        [{ id := 1, name := "Alice", email := "alice@x.com",
           password := ⟨"Secret123", 0⟩ },
         { id := 2, name := "Bob", email := "bob@x.com",
           password := ⟨"Pw12345678", 0⟩, active := false }] 0
        "alice@x.com" "WrongPw" = .error .invalidCredentials ∧
    authenticate_user
        [{ id := 1, name := "Alice", email := "alice@x.com",
           password := ⟨"Secret123", 0⟩ },
         { id := 2, name := "Bob", email := "bob@x.com",
           password := ⟨"Pw12345678", 0⟩, active := false }] 0
        "bob@x.com" "Pw12345678" = .error .accountDisabled :=
  ⟨(authenticate_user_spec _ 0).1 "carol@x.com" "whatever" (by decide),
   (authenticate_user_spec _ 0).2.1 "alice@x.com" "WrongPw"
     { id := 1, name := "Alice", email := "alice@x.com",
       password := ⟨"Secret123", 0⟩ }
     (by decide) (by decide),
   (authenticate_user_spec _ 0).2.2 "bob@x.com" "Pw12345678"
     { id := 2, name := "Bob", email := "bob@x.com",
       password := ⟨"Pw12345678", 0⟩, active := false }
     (by decide) (by decide) (by decide)⟩

end Users

namespace Users

/-- Claim C8: a credential whose embedded `type` tag is not `"refresh"`,
one referencing a user that no longer exists, and one referencing an
inactive user are all rejected with the one generic outcome `none`
(literally the same value in every failure case, so the caller cannot
distinguish the reason); otherwise a fresh access/refresh pair is issued
carrying the same `sub` and `email` claims, the refresh credential again
tagged `"refresh"`. -/
theorem refresh_token_spec (store : List User) (now : Nat) :
    (∀ p : TokenPayload, p.ttype ≠ some "refresh" →
      refresh_token store now (.signed p) = none) ∧
    (∀ p : TokenPayload, ∀ uid em, p.ttype = some "refresh" →
      p.sub = some uid → p.email = some em → getUserById store uid = none →
      refresh_token store now (.signed p) = none) ∧
    (∀ p : TokenPayload, ∀ uid em u, p.ttype = some "refresh" →
      p.sub = some uid → p.email = some em → getUserById store uid = some u →
      u.active = false → refresh_token store now (.signed p) = none) ∧
    (∀ p : TokenPayload, ∀ uid em u, p.ttype = some "refresh" →
      p.sub = some uid → p.email = some em → getUserById store uid = some u →
      u.active = true →
      refresh_token store now (.signed p) =
        some { access_token :=
                 create_access_token uid em
                   (now + ACCESS_TOKEN_EXPIRE_MINUTES * 60)
               refresh_token :=
                 create_refresh_token uid em
                   (now + REFRESH_TOKEN_EXPIRE_DAYS * 24 * 3600)
               token_type := "bearer"
               expires_in := ACCESS_TOKEN_EXPIRE_MINUTES * 60 }) := by
  refine ⟨?_, ?_, ?_, ?_⟩
  · intro p h
    simp [refresh_token, jwtDecode, h]
  · intro p uid em ht hs he hu
    simp [refresh_token, jwtDecode, ht, hs, he, hu]
  · intro p uid em u ht hs he hu ha
    simp [refresh_token, jwtDecode, ht, hs, he, hu, ha]
  · intro p uid em u ht hs he hu ha
    simp [refresh_token, jwtDecode, ht, hs, he, hu, ha]

/-- Witness for C8: a wrongly tagged credential, one for a deleted user, one
for a deactivated user, and a successful renewal, over a concrete store. -/
theorem refresh_token_spec_witness :
    refresh_token [{ id := 1, name := "Alice", email := "alice@x.com",
                     password := ⟨"Secret123", 0⟩ }] 100
      (.signed { sub := some 1, email := some "alice@x.com", exp := 7 }) =
      none ∧
    refresh_token [{ id := 1, name := "Alice", email := "alice@x.com",
                     password := ⟨"Secret123", 0⟩ }] 100
      (.signed { sub := some 9, email := some "gone@x.com",
                 ttype := some "refresh", exp := 7 }) = none ∧
    refresh_token [{ id := 2, name := "Bob", email := "bob@x.com",
                     password := ⟨"Pw12345678", 0⟩, active := false }] 100
      (.signed { sub := some 2, email := some "bob@x.com",
                 ttype := some "refresh", exp := 7 }) = none ∧
    refresh_token [{ id := 1, name := "Alice", email := "alice@x.com",
                     password := ⟨"Secret123", 0⟩ }] 100
      (.signed { sub := some 1, email := some "alice@x.com",
                 ttype := some "refresh", exp := 7 }) =
      some { access_token := create_access_token 1 "alice@x.com" (100 + 1800)
             refresh_token := create_refresh_token 1 "alice@x.com" (100 + 604800)
             token_type := "bearer"
             expires_in := 1800 } :=
  ⟨(refresh_token_spec _ 100).1
     { sub := some 1, email := some "alice@x.com", exp := 7 } (by decide),
   (refresh_token_spec _ 100).2.1
     { sub := some 9, email := some "gone@x.com",
       ttype := some "refresh", exp := 7 } 9 "gone@x.com"
     (by decide) (by decide) (by decide) (by decide),
   (refresh_token_spec _ 100).2.2.1
     { sub := some 2, email := some "bob@x.com",
       ttype := some "refresh", exp := 7 } 2 "bob@x.com"
     { id := 2, name := "Bob", email := "bob@x.com",
       password := ⟨"Pw12345678", 0⟩, active := false }
     (by decide) (by decide) (by decide) (by decide) (by decide),
   (refresh_token_spec _ 100).2.2.2
     { sub := some 1, email := some "alice@x.com",
       ttype := some "refresh", exp := 7 } 1 "alice@x.com"
     { id := 1, name := "Alice", email := "alice@x.com",
       password := ⟨"Secret123", 0⟩ }
     (by decide) (by decide) (by decide) (by decide) (by decide)⟩

/-- Claim C7: when the supplied current password does not verify against
the stored hash, `change_password` fails with the invalid-credentials
error and returns the store unchanged (every user, hash included, exactly
as before); when it verifies, the new password is hashed and persisted for
that user — ids are preserved, the targeted user differs from before only
in the `password` field, and every other user is untouched. -/
theorem change_password_spec (store : List User) (salt uid : Nat)
    (currentPw newPw : String) (u : User)
    (hu : getUserById store uid = some u) :
    (checkpw currentPw u.password = false →
      change_password store salt uid currentPw newPw =
        (.error .currentPasswordIncorrect, store)) ∧
    (checkpw currentPw u.password = true →
      ∃ t, change_password store salt uid currentPw newPw = (.ok true, t) ∧
        t.map User.id = store.map User.id ∧
        (∀ x ∈ t, x.id = uid →
          ∃ y ∈ store, y.id = uid ∧
            x = { y with password := hash_password newPw salt }) ∧
        (∀ x ∈ t, x.id ≠ uid → x ∈ store)) := by
  constructor
  · intro hc
    simp [change_password, hu, hc]
  · intro hc
    refine ⟨store.map (fun x =>
        if x.id = uid then { x with password := hash_password newPw salt }
        else x), ?_, ?_, ?_, ?_⟩
    · simp [change_password, hu, hc]
    · rw [List.map_map]
      apply List.map_congr_left
      intro y hy
      by_cases h : y.id = uid <;> simp [h]
    · intro x hx hxid
      obtain ⟨y, hy, rfl⟩ := List.mem_map.mp hx
      by_cases h : y.id = uid
      · exact ⟨y, hy, h, by simp [h]⟩
      · simp [h] at hxid
    · intro x hx hxid
      obtain ⟨y, hy, rfl⟩ := List.mem_map.mp hx
      by_cases h : y.id = uid
      · simp [h] at hxid
      · simpa [h] using hy

/-- Witness for C7: a failed then a successful password change on a
one-user store. -/
theorem change_password_spec_witness :
    (change_password [({ id := 1, name := "Alice", email := "alice@x.com",
                         password := ⟨"Secret123", 5⟩ } : User)] 9 1
        "WrongPw" "NewPw12345" =
      (.error .currentPasswordIncorrect,
       [({ id := 1, name := "Alice", email := "alice@x.com",
           password := ⟨"Secret123", 5⟩ } : User)])) ∧
    (∃ t, change_password [({ id := 1, name := "Alice", email := "alice@x.com",
                              password := ⟨"Secret123", 5⟩ } : User)] 9 1
        "Secret123" "NewPw12345" = (.ok true, t) ∧
      t.map User.id =
        [({ id := 1, name := "Alice", email := "alice@x.com",
            password := ⟨"Secret123", 5⟩ } : User)].map User.id ∧
      (∀ x ∈ t, x.id = 1 →
        ∃ y ∈ [({ id := 1, name := "Alice", email := "alice@x.com",
                  password := ⟨"Secret123", 5⟩ } : User)], y.id = 1 ∧
          x = { y with password := hash_password "NewPw12345" 9 }) ∧
      (∀ x ∈ t, x.id ≠ 1 →
        x ∈ [({ id := 1, name := "Alice", email := "alice@x.com",
                password := ⟨"Secret123", 5⟩ } : User)])) :=
  ⟨(change_password_spec _ 9 1 "WrongPw" "NewPw12345"
      { id := 1, name := "Alice", email := "alice@x.com",
        password := ⟨"Secret123", 5⟩ } (by decide)).1 (by decide),
   (change_password_spec _ 9 1 "Secret123" "NewPw12345"
      { id := 1, name := "Alice", email := "alice@x.com",
        password := ⟨"Secret123", 5⟩ } (by decide)).2 (by decide)⟩

end Users

namespace Resumes

/-- Every resume's status is one of the three enum members, so the length
of a list splits into the three status tallies. -/
theorem length_eq_status_tallies (l : List Resume) :
    l.length = (l.filter (fun r => r.status = ResumeStatus.ACTIVE)).length
      + (l.filter (fun r => r.status = ResumeStatus.DRAFT)).length
      + (l.filter (fun r => r.status = ResumeStatus.ARCHIVED)).length := by
  induction l with
  | nil => rfl
  | cons r t ih =>
    cases h : r.status <;> simp [List.filter_cons, h, ih] <;> omega

/-- Claim C9: in every listing result, `total_count` equals the number of
returned resumes, each per-status count tallies exactly the resumes of
the returned (filtered) set with that status, and therefore `total_count`
equals `active_count + draft_count + archived_count`. -/
theorem listar_curriculos_spec (s : ResumeStore) (uid : Nat)
    (f : Option ResumeStatus) :
    (listar_curriculos s uid f).total_count =
        (listar_curriculos s uid f).resumes.length ∧
    (listar_curriculos s uid f).active_count =
        ((listar_curriculos s uid f).resumes.filter
          (fun r => r.status = ResumeStatus.ACTIVE)).length ∧
    (listar_curriculos s uid f).draft_count =
        ((listar_curriculos s uid f).resumes.filter
          (fun r => r.status = ResumeStatus.DRAFT)).length ∧
    (listar_curriculos s uid f).archived_count =
        ((listar_curriculos s uid f).resumes.filter
          (fun r => r.status = ResumeStatus.ARCHIVED)).length ∧
    (listar_curriculos s uid f).total_count =
        (listar_curriculos s uid f).active_count
          + (listar_curriculos s uid f).draft_count
          + (listar_curriculos s uid f).archived_count := by
  refine ⟨rfl, rfl, rfl, rfl, ?_⟩
  simpa [listar_curriculos] using length_eq_status_tallies (listByUser s uid f)

end Resumes

namespace Resumes

/-- Claim C2: updating an existing, owned resume returns a brand-new row
(its id is fresh with respect to the previous store) carrying forward
`resume_group_id`, `user_id` and every field not overridden by the
payload, with `version_number` incremented by one, the supplied version
label (or the derived `v\x7bn\x7d.0` label when none is supplied) and
`is_current = true`; and when the existing row was current, its
`is_current` flag is false in the persisted store. -/
theorem atualizar_curriculo_spec (s : ResumeStore) (now uid rid : Nat)
    (dto : ResumeUpdateRequest) (ex : Resume)
    (hwf : s.wf) (h1 : getById s rid = some ex) (h2 : ex.user_id = uid) :
    ∃ t created, atualizar_curriculo s now uid rid dto = .ok (t, created) ∧
      (created.resume_group_id = ex.resume_group_id ∧
       created.user_id = ex.user_id ∧
       created.version_number = ex.version_number + 1 ∧
       created.is_current = true) ∧
      (dto.version = none →
        created.version = "v" ++ toString (ex.version_number + 1) ++ ".0") ∧
      (∀ l, dto.version = some l → l ≠ "" → created.version = l) ∧
      (dto.title = none → created.title = ex.title) ∧
      (∀ l, dto.title = some l → l ≠ "" → created.title = l) ∧
      (dto.status = none → created.status = ex.status) ∧
      (∀ st, dto.status = some st → created.status = st) ∧
      (dto.original_filename = none →
        created.original_filename = ex.original_filename) ∧
      (dto.file_size = none → created.file_size = ex.file_size) ∧
      (∀ v, dto.file_size = some v → created.file_size = some v) ∧
      (dto.file_type = none → created.file_type = ex.file_type) ∧
      (created.data_lake_file_id = ex.data_lake_file_id ∧
       created.last_analyzed_at = ex.last_analyzed_at ∧
       created.analysis_count = ex.analysis_count ∧
       created.average_match_score = ex.average_match_score) ∧
      (∀ r ∈ s.rows, created.resume_id ≠ r.resume_id) ∧
      created ∈ t.rows ∧
      (ex.is_current = true →
        ∀ r ∈ t.rows, r.resume_id = ex.resume_id → r.is_current = false) := by
  have hmem : ex ∈ s.rows := List.mem_of_find?_eq_some h1
  have hexid : ex.resume_id = rid := by simpa using List.find?_some h1
  have hne : ¬ (ex.user_id ≠ uid) := by simp [h2]
  simp only [atualizar_curriculo, h1]
  rw [if_neg hne]
  by_cases hcur : ex.is_current = true
  · rw [if_pos hcur]
    refine ⟨_, _, rfl, ⟨rfl, rfl, rfl, rfl⟩, ?_, ?_, ?_, ?_, ?_, ?_, ?_, ?_,
      ?_, ?_, ⟨rfl, rfl, rfl, rfl⟩, ?_, ?_, ?_⟩
    · intro h; simp [strOr, h]
    · intro l h hl; simp [strOr, h, hl]
    · intro h; simp [strOr, h]
    · intro l h hl; simp [strOr, h, hl]
    · intro h; simp [statusOr, h]
    · intro st h; simp [statusOr, h]
    · intro h; simp [optStrOr, h]
    · intro h; simp [h]
    · intro v h; simp [h]
    · intro h; simp [optStrOr, h]
    · intro r hr
      exact (hwf r hr).ne'
    · simp [addRow]
    · intro _ r hr hrid
      simp only [addRow, updateRow, List.mem_append, List.mem_map,
        List.mem_singleton] at hr
      rcases hr with ⟨x, hx, hxr⟩ | hrnew
      · by_cases hxid : x.resume_id = ex.resume_id
        · rw [if_pos hxid] at hxr
          rw [← hxr]
        · rw [if_neg hxid] at hxr
          rw [← hxr] at hrid
          exact absurd hrid hxid
      · subst hrnew
        exact absurd hrid ((hwf ex hmem).ne' : _)
  · rw [if_neg hcur]
    refine ⟨_, _, rfl, ⟨rfl, rfl, rfl, rfl⟩, ?_, ?_, ?_, ?_, ?_, ?_, ?_, ?_,
      ?_, ?_, ⟨rfl, rfl, rfl, rfl⟩, ?_, ?_, ?_⟩
    · intro h; simp [strOr, h]
    · intro l h hl; simp [strOr, h, hl]
    · intro h; simp [strOr, h]
    · intro l h hl; simp [strOr, h, hl]
    · intro h; simp [statusOr, h]
    · intro st h; simp [statusOr, h]
    · intro h; simp [optStrOr, h]
    · intro h; simp [h]
    · intro v h; simp [h]
    · intro h; simp [optStrOr, h]
    · intro r hr
      exact (hwf r hr).ne'
    · simp [addRow]
    · intro h
      exact absurd h hcur

end Resumes

namespace Resumes

/-- Claim C1 (failing-input evaluation): starting from the empty store,
`criar_curriculo` creates version 1 of a group and `atualizar_curriculo`
on it creates version 2 (flipping version 1); a further
`atualizar_curriculo` addressed at the now non-current version-1 row is
accepted, skips the flip (the guard only flips the row being updated),
and inserts another `is_current = true` row — leaving the group with two
current rows.  This violates the single-current-row invariant without any
concurrency or failure involved. -/
theorem update_of_noncurrent_version_breaks_single_current :
    currentCount
      (match atualizar_curriculo
          (match atualizar_curriculo
              (criar_curriculo ⟨[], 0⟩ 0 7 { title := "CV", version := "v1.0" }).1
              1 7 0 {} with
            | .ok p => p.1
            | .error _ => ⟨[], 0⟩)
          2 7 0 {} with
        | .ok p => p.1
        | .error _ => ⟨[], 0⟩)
      0 = 2 := by decide

/-- Witness for C2: updating the single current version of a one-row
store with an empty payload. -/
theorem atualizar_curriculo_spec_witness :
    ∃ t created,
      atualizar_curriculo
        ⟨[{ resume_id := 0, resume_group_id := 3, user_id := 7, title := "CV",
            version_number := 1, version := "v1.0", is_current := true,
            status := .DRAFT }], 1⟩ 5 7 0 {} = .ok (t, created) ∧
      created.resume_group_id = 3 ∧ created.user_id = 7 ∧
      created.version_number = 2 ∧ created.is_current = true ∧
      created.version = "v2.0" ∧ created.title = "CV" ∧
      created.resume_id ≠ 0 ∧ created ∈ t.rows ∧
      (∀ r ∈ t.rows, r.resume_id = 0 → r.is_current = false) := by
  obtain ⟨t, c, heq, ⟨hg, hu, hv, hc⟩, hvn, -, htn, -, -, -, -, -, -, -, -,
      hfresh, hmem, hflip⟩ :=
    atualizar_curriculo_spec
      ⟨[{ resume_id := 0, resume_group_id := 3, user_id := 7, title := "CV",
          version_number := 1, version := "v1.0", is_current := true,
          status := .DRAFT }], 1⟩ 5 7 0 {}
      { resume_id := 0, resume_group_id := 3, user_id := 7, title := "CV",
        version_number := 1, version := "v1.0", is_current := true,
        status := .DRAFT }
      (by unfold ResumeStore.wf; decide) rfl rfl
  exact ⟨t, c, heq, hg, hu, hv, hc, (hvn rfl).trans (by decide), htn rfl,
    hfresh _ (List.mem_singleton_self _), hmem, hflip rfl⟩

/-- Claim C10: a payload carrying `None` or the empty string (the falsy
`str` values) for `title`, `version`, `status` (whose enum members are
always truthy, so only `None` arises), `original_filename` or `file_type`
is treated as not provided: the new version carries the existing row's
value forward — except `version`, which gets the derived label. -/
theorem atualizar_curriculo_falsy_spec (s : ResumeStore) (now uid rid : Nat)
    (dto : ResumeUpdateRequest) (ex : Resume)
    (h1 : getById s rid = some ex) (h2 : ex.user_id = uid) :
    ∃ t created, atualizar_curriculo s now uid rid dto = .ok (t, created) ∧
      ((dto.title = none ∨ dto.title = some "") →
        created.title = ex.title) ∧
      ((dto.version = none ∨ dto.version = some "") →
        created.version = "v" ++ toString (ex.version_number + 1) ++ ".0") ∧
      (dto.status = none → created.status = ex.status) ∧
      ((dto.original_filename = none ∨ dto.original_filename = some "") →
        created.original_filename = ex.original_filename) ∧
      ((dto.file_type = none ∨ dto.file_type = some "") →
        created.file_type = ex.file_type) := by
  have hne : ¬ (ex.user_id ≠ uid) := by simp [h2]
  simp only [atualizar_curriculo, h1]
  rw [if_neg hne]
  by_cases hcur : ex.is_current = true
  · rw [if_pos hcur]
    refine ⟨_, _, rfl, ?_, ?_, ?_, ?_, ?_⟩
    · rintro (h | h) <;> simp [strOr, h]
    · rintro (h | h) <;> simp [strOr, h]
    · intro h; simp [statusOr, h]
    · rintro (h | h) <;> simp [optStrOr, h]
    · rintro (h | h) <;> simp [optStrOr, h]
  · rw [if_neg hcur]
    refine ⟨_, _, rfl, ?_, ?_, ?_, ?_, ?_⟩
    · rintro (h | h) <;> simp [strOr, h]
    · rintro (h | h) <;> simp [strOr, h]
    · intro h; simp [statusOr, h]
    · rintro (h | h) <;> simp [optStrOr, h]
    · rintro (h | h) <;> simp [optStrOr, h]

/-- Witness for C10: a payload of empty strings (and no status) against a
row with populated fields falls back to the row's values and the derived
label. -/
theorem atualizar_curriculo_falsy_spec_witness :
    ∃ t created,
      atualizar_curriculo
        ⟨[{ resume_id := 0, resume_group_id := 3, user_id := 7, title := "CV",
            version_number := 1, version := "v1.0", is_current := true,
            status := .ACTIVE, original_filename := some "orig.pdf",
            file_type := some "pdf" }], 1⟩ 5 7 0
        { title := some "", version := some "", original_filename := some "",
          file_type := some "" } = .ok (t, created) ∧
      created.title = "CV" ∧ created.version = "v2.0" ∧
      created.status = .ACTIVE ∧
      created.original_filename = some "orig.pdf" ∧
      created.file_type = some "pdf" := by
  obtain ⟨t, c, heq, ht, hv, hs, hofn, hft⟩ :=
    atualizar_curriculo_falsy_spec
      ⟨[{ resume_id := 0, resume_group_id := 3, user_id := 7, title := "CV",
          version_number := 1, version := "v1.0", is_current := true,
          status := .ACTIVE, original_filename := some "orig.pdf",
          file_type := some "pdf" }], 1⟩ 5 7 0
      { title := some "", version := some "", original_filename := some "",
        file_type := some "" }
      { resume_id := 0, resume_group_id := 3, user_id := 7, title := "CV",
        version_number := 1, version := "v1.0", is_current := true,
        status := .ACTIVE, original_filename := some "orig.pdf",
        file_type := some "pdf" }
      rfl rfl
  exact ⟨t, c, heq, ht (Or.inr rfl), (hv (Or.inr rfl)).trans (by decide),
    hs rfl, hofn (Or.inr rfl), hft (Or.inr rfl)⟩

end Resumes

namespace Jobs

/-- Claim C3: for job update and delete, a missing requester identity
fails authentication-required; with an identity supplied, an absent job
fails not-found; an identity the resolver cannot map to an internal key
fails with the authenticated-user-not-found error; a resolved key
differing from the job's stored `created_by_user_id` fails not-authorized;
otherwise update applies exactly the explicitly-provided payload fields to
the row and persists it, and delete removes exactly that row.  Fetching a
job by id takes no caller identity at all and returns the row whenever it
exists. -/
theorem job_ownership_chain_spec (s : JobStore) (ok : Bool) :
    (∀ jid r, update_job_description s ok jid r none =
        .error .authenticationRequired) ∧
    (∀ jid r v, getJobById s jid = none →
      update_job_description s ok jid r (some v) = .error .notFound) ∧
    (∀ jid r v ex, getJobById s jid = some ex →
      resolve_id_from_uuid s.users ok v = none →
      update_job_description s ok jid r (some v) =
        .error .authUserNotFound) ∧
    (∀ jid r v ex k c, getJobById s jid = some ex →
      resolve_id_from_uuid s.users ok v = some k →
      ex.created_by_user_id = some c → c ≠ k →
      update_job_description s ok jid r (some v) = .error .notAuthorized) ∧
    (∀ jid r v ex k, getJobById s jid = some ex →
      resolve_id_from_uuid s.users ok v = some k →
      ex.created_by_user_id = some k →
      ∃ t, update_job_description s ok jid r (some v) =
          .ok (t, applyUpdate ex r) ∧
        (∀ x ∈ t.jobs, x.job_id = jid → x = applyUpdate ex r) ∧
        (∀ x ∈ t.jobs, x.job_id ≠ jid → x ∈ s.jobs) ∧
        t.jobs.length = s.jobs.length) ∧
    (∀ j r, (r.title = none → (applyUpdate j r).title = j.title) ∧
      (∀ a, r.title = some a → (applyUpdate j r).title = a) ∧
      (r.location = none → (applyUpdate j r).location = j.location) ∧
      (∀ a, r.location = some a → (applyUpdate j r).location = some a) ∧
      (r.job_type = none → (applyUpdate j r).job_type = j.job_type) ∧
      (∀ a, r.job_type = some a → (applyUpdate j r).job_type = some a) ∧
      (r.salary_range = none →
        (applyUpdate j r).salary_range = j.salary_range) ∧
      (∀ a, r.salary_range = some a →
        (applyUpdate j r).salary_range = some a) ∧
      (r.experience_level = none →
        (applyUpdate j r).experience_level = j.experience_level) ∧
      (∀ a, r.experience_level = some a →
        (applyUpdate j r).experience_level = some a) ∧
      (r.description = none →
        (applyUpdate j r).description = j.description) ∧
      (∀ a, r.description = some a → (applyUpdate j r).description = a) ∧
      (r.requirements = none →
        (applyUpdate j r).requirements = j.requirements) ∧
      (∀ a, r.requirements = some a →
        (applyUpdate j r).requirements = some a) ∧
      (r.benefits = none → (applyUpdate j r).benefits = j.benefits) ∧
      (∀ a, r.benefits = some a → (applyUpdate j r).benefits = some a) ∧
      (r.expires_at = none → (applyUpdate j r).expires_at = j.expires_at) ∧
      (∀ a, r.expires_at = some a → (applyUpdate j r).expires_at = some a) ∧
      (r.is_active = none → (applyUpdate j r).is_active = j.is_active) ∧
      (∀ a, r.is_active = some a → (applyUpdate j r).is_active = a) ∧
      ((applyUpdate j r).job_id = j.job_id) ∧
      ((applyUpdate j r).created_by_user_id = j.created_by_user_id)) ∧
    (∀ jid, delete_job_description s ok jid none =
        .error .authenticationRequired) ∧
    (∀ jid v, getJobById s jid = none →
      delete_job_description s ok jid (some v) = .error .notFound) ∧
    (∀ jid v ex, getJobById s jid = some ex →
      resolve_id_from_uuid s.users ok v = none →
      delete_job_description s ok jid (some v) =
        .error .authUserNotFound) ∧
    (∀ jid v ex k c, getJobById s jid = some ex →
      resolve_id_from_uuid s.users ok v = some k →
      ex.created_by_user_id = some c → c ≠ k →
      delete_job_description s ok jid (some v) = .error .notAuthorized) ∧
    (∀ jid v ex k, getJobById s jid = some ex →
      resolve_id_from_uuid s.users ok v = some k →
      ex.created_by_user_id = some k →
      ∃ t, delete_job_description s ok jid (some v) = .ok (t, true) ∧
        (∀ x ∈ t.jobs, x.job_id ≠ jid) ∧
        (∀ x ∈ t.jobs, x ∈ s.jobs) ∧
        (∀ x ∈ s.jobs, x.job_id ≠ jid → x ∈ t.jobs)) ∧
    (∀ jid ex, getJobById s jid = some ex →
      get_job_description s jid = some ex) ∧
    (∀ jid, getJobById s jid = none → get_job_description s jid = none) := by
  refine ⟨fun jid r => rfl, ?_, ?_, ?_, ?_, ?_, fun jid => rfl, ?_, ?_, ?_,
    ?_, ?_, ?_⟩
  · intro jid r v h
    simp [update_job_description, h]
  · intro jid r v ex h hres
    simp [update_job_description, h, hres]
  · intro jid r v ex k c h hres hcb hneq
    simp [update_job_description, h, hres, hcb, hneq]
  · intro jid r v ex k h hres hcb
    refine ⟨{ s with jobs :=
                s.jobs.map (fun j =>
                  if j.job_id = jid then applyUpdate ex r else j) },
      by simp [update_job_description, h, hres, hcb], ?_, ?_, ?_⟩
    · intro x hx hxid
      simp only [List.mem_map] at hx
      obtain ⟨y, hy, hyx⟩ := hx
      by_cases hyid : y.job_id = jid
      · rw [if_pos hyid] at hyx
        exact hyx.symm
      · rw [if_neg hyid] at hyx
        rw [← hyx] at hxid
        exact absurd hxid hyid
    · intro x hx hxid
      simp only [List.mem_map] at hx
      obtain ⟨y, hy, hyx⟩ := hx
      by_cases hyid : y.job_id = jid
      · rw [if_pos hyid] at hyx
        have hid : (applyUpdate ex r).job_id = ex.job_id := rfl
        rw [← hyx] at hxid
        have : ex.job_id = jid := by
          have := List.find?_some h
          simpa using this
        rw [hid, this] at hxid
        exact absurd rfl hxid
      · rw [if_neg hyid] at hyx
        rw [← hyx]
        exact hy
    · simp
  · intro j r
    refine ⟨?_, ?_, ?_, ?_, ?_, ?_, ?_, ?_, ?_, ?_, ?_, ?_, ?_, ?_, ?_, ?_,
      ?_, ?_, ?_, ?_, rfl, rfl⟩ <;> intros <;> simp [applyUpdate, *]
  · intro jid v h
    simp [delete_job_description, h]
  · intro jid v ex h hres
    simp [delete_job_description, h, hres]
  · intro jid v ex k c h hres hcb hneq
    simp [delete_job_description, h, hres, hcb, hneq]
  · intro jid v ex k h hres hcb
    refine ⟨{ s with jobs := s.jobs.filter (fun j => ¬ j.job_id = jid) },
      by simp [delete_job_description, h, hres, hcb], ?_, ?_, ?_⟩
    · intro x hx
      have := (List.mem_filter.mp hx).2
      simpa using this
    · intro x hx
      exact (List.mem_filter.mp hx).1
    · intro x hx hxid
      exact List.mem_filter.mpr ⟨hx, by simpa using hxid⟩
  · intro jid ex h
    simp [get_job_description, h]
  · intro jid h
    simp [get_job_description, h]

end Jobs

namespace Jobs

/-- Witness for C3: the whole authorization chain exercised on a concrete
store (one job owned by surrogate key 10, one user-table row mapping
UUID 1 to key 10). -/
theorem job_ownership_chain_spec_witness :
    update_job_description
      ⟨[{ job_id := 0, title := "T", description := "D",
          created_by_user_id := some 10 }], [(1, 10)], 5⟩
      true 0 {} none = .error .authenticationRequired ∧
    update_job_description
      ⟨[{ job_id := 0, title := "T", description := "D",
          created_by_user_id := some 10 }], [(1, 10)], 5⟩
      true 99 {} (some (.intVal 10)) = .error .notFound ∧
    update_job_description
      ⟨[{ job_id := 0, title := "T", description := "D",
          created_by_user_id := some 10 }], [(1, 10)], 5⟩
      true 0 {} (some (.uuidVal 2)) = .error .authUserNotFound ∧
    update_job_description
      ⟨[{ job_id := 0, title := "T", description := "D",
          created_by_user_id := some 10 }], [(1, 10)], 5⟩
      true 0 {} (some (.intVal 11)) = .error .notAuthorized ∧
    (∃ t, update_job_description
        ⟨[{ job_id := 0, title := "T", description := "D",
            created_by_user_id := some 10 }], [(1, 10)], 5⟩
        true 0 { title := some "T2" } (some (.uuidVal 1)) =
        .ok (t, applyUpdate
          { job_id := 0, title := "T", description := "D",
            created_by_user_id := some 10 }
          { title := some "T2" }) ∧
      (∀ x ∈ t.jobs, x.job_id = 0 →
        x = applyUpdate
          { job_id := 0, title := "T", description := "D",
            created_by_user_id := some 10 }
          { title := some "T2" }) ∧
      (∀ x ∈ t.jobs, x.job_id ≠ 0 →
        x ∈ [{ job_id := 0, title := "T", description := "D",
               created_by_user_id := some 10 }]) ∧
      t.jobs.length = 1) ∧
    (applyUpdate
      { job_id := 0, title := "T", description := "D",
        created_by_user_id := some 10 }
      { title := some "T2" }).title = "T2" ∧
    (applyUpdate
      { job_id := 0, title := "T", description := "D",
        created_by_user_id := some 10 }
      { title := some "T2" }).description = "D" ∧
    delete_job_description
      ⟨[{ job_id := 0, title := "T", description := "D",
          created_by_user_id := some 10 }], [(1, 10)], 5⟩
      true 0 none = .error .authenticationRequired ∧
    delete_job_description
      ⟨[{ job_id := 0, title := "T", description := "D",
          created_by_user_id := some 10 }], [(1, 10)], 5⟩
      true 99 (some (.intVal 10)) = .error .notFound ∧
    (∃ t, delete_job_description
        ⟨[{ job_id := 0, title := "T", description := "D",
            created_by_user_id := some 10 }], [(1, 10)], 5⟩
        true 0 (some (.intVal 10)) = .ok (t, true) ∧
      (∀ x ∈ t.jobs, x.job_id ≠ 0) ∧
      (∀ x ∈ t.jobs,
        x ∈ [{ job_id := 0, title := "T", description := "D",
               created_by_user_id := some 10 }]) ∧
      (∀ x ∈ [({ job_id := 0, title := "T", description := "D",
                 created_by_user_id := some 10 } : JobDescription)],
        x.job_id ≠ 0 → x ∈ t.jobs)) ∧
    get_job_description
      ⟨[{ job_id := 0, title := "T", description := "D",
          created_by_user_id := some 10 }], [(1, 10)], 5⟩ 0 =
      some { job_id := 0, title := "T", description := "D",
             created_by_user_id := some 10 } ∧
    get_job_description
      ⟨[{ job_id := 0, title := "T", description := "D",
          created_by_user_id := some 10 }], [(1, 10)], 5⟩ 99 = none := by
  obtain ⟨u1, u2, u3, u4, u5, fspec, d1, d2, d3, d4, d5, g1, g2⟩ :=
    job_ownership_chain_spec
      ⟨[{ job_id := 0, title := "T", description := "D",
          created_by_user_id := some 10 }], [(1, 10)], 5⟩ true
  obtain ⟨-, fts, -, -, -, -, -, -, -, -, fdn, -, -, -, -, -, -, -, -, -, -,
      -⟩ :=
    fspec
      { job_id := 0, title := "T", description := "D",
        created_by_user_id := some 10 }
      { title := some "T2" }
  exact ⟨u1 0 {},
    u2 99 {} (.intVal 10) (by decide),
    u3 0 {} (.uuidVal 2) _ rfl (by decide),
    u4 0 {} (.intVal 11) _ 11 10 rfl (by decide) rfl (by decide),
    u5 0 { title := some "T2" } (.uuidVal 1) _ 10 rfl (by decide) rfl,
    fts "T2" rfl,
    fdn rfl,
    d1 0,
    d2 99 (.intVal 10) (by decide),
    d5 0 (.intVal 10) _ 10 rfl (by decide) rfl,
    g1 0 _ rfl,
    g2 99 (by decide)⟩

/-- Claim C6: creating a job description with no creator identity fails
authentication-required; with a creator identity that the Identity
Resolver maps to internal key `k`, the created and persisted row stores
`created_by_user_id = k` and carries the request's fields, posted now and
active. -/
theorem add_job_description_spec (s : JobStore) (now : Nat)
    (req : JobDescriptionCreateRequest) :
    (add_job_description s now req none = .error .authenticationRequired) ∧
    (∀ v k, resolve_id_from_uuid s.users true v = some k →
      ∃ t j, add_job_description s now req (some v) = .ok (t, j) ∧
        j.created_by_user_id = some k ∧ j ∈ t.jobs ∧
        j.title = req.title ∧ j.location = req.location ∧
        j.description = req.description ∧ j.requirements = req.requirements ∧
        j.posted_at = now ∧ j.expires_at = req.expires_at ∧
        j.is_active = true) := by
  constructor
  · rfl
  · intro v k h
    refine ⟨{ jobs := s.jobs ++
                [{ job_id := s.nextId, company_id := req.company_id,
                   title := req.title, location := req.location,
                   job_type := req.job_type, salary_range := req.salary_range,
                   experience_level := req.experience_level,
                   description := req.description,
                   requirements := req.requirements,
                   benefits := req.benefits, posted_at := now,
                   expires_at := req.expires_at, is_active := true,
                   created_by_user_id := some k }],
              users := s.users, nextId := s.nextId + 1 },
      { job_id := s.nextId, company_id := req.company_id,
        title := req.title, location := req.location,
        job_type := req.job_type, salary_range := req.salary_range,
        experience_level := req.experience_level,
        description := req.description, requirements := req.requirements,
        benefits := req.benefits, posted_at := now,
        expires_at := req.expires_at, is_active := true,
        created_by_user_id := some k },
      ?_, rfl, by simp, rfl, rfl, rfl, rfl, rfl, rfl, rfl⟩
    simp only [add_job_description, JobRepository_add, h]

/-- Witness for C6: creation without a creator and creation by the user
whose UUID 1 resolves to key 10. -/
theorem add_job_description_spec_witness :
    add_job_description ⟨[], [(1, 10)], 0⟩ 3
      { title := "T", description := "D" } none =
      .error .authenticationRequired ∧
    (∃ t j, add_job_description ⟨[], [(1, 10)], 0⟩ 3
        { title := "T", description := "D" } (some (.uuidVal 1)) =
        .ok (t, j) ∧
      j.created_by_user_id = some 10 ∧ j ∈ t.jobs ∧
      j.title = "T" ∧ j.location = none ∧ j.description = "D" ∧
      j.requirements = none ∧ j.posted_at = 3 ∧ j.expires_at = none ∧
      j.is_active = true) :=
  ⟨(add_job_description_spec ⟨[], [(1, 10)], 0⟩ 3
      { title := "T", description := "D" }).1,
   (add_job_description_spec ⟨[], [(1, 10)], 0⟩ 3
      { title := "T", description := "D" }).2 (.uuidVal 1) 10 (by decide)⟩

end Jobs
